import Mathlib

/-!
Verification development for the video-hosting backend in
`src/backend/main.py` (FastAPI façade over blob storage, a relational
comment store, and a sentiment-analysis service).

The shallow embedding models:
  * filename normalization performed by `upload_video`
    (`filename.lower().endswith(".mp4")`, `filename.rsplit('.', 1)[0]`);
  * the `analyze_sentiment` adapter with its catch-all fallback;
  * the `/add-comment/` and `/get-comments/` endpoints over an explicit
    database state, with the external collaborators (classifier call,
    SQL execute/commit) passed in as oracles that may fail;
  * the `/upload-video/` endpoint with the blob upload as an oracle and
    the SAS-token request (`generate_blob_sas` arguments) made explicit.

Strings are modelled as `List Char`; Python floats as `Rat` (the code
performs no arithmetic on scores, only pass-through and falsy defaulting);
SQL `GETDATE()` as a server clock `Nat` carried in the database state.
-/

namespace Backend

/-! ## Filename normalization (upload_video, main.py lines 97-99) -/

/-- Python `str.lower()` restricted to ASCII, as `List Char`. -/
def pyLower (s : List Char) : List Char := s.map Char.toLower

/-- The literal `".mp4"` as a character list. -/
def mp4Ext : List Char := ['.', 'm', 'p', '4']

/-- Python `s.lower().endswith(".mp4")`. -/
def endsWithMp4 (s : List Char) : Bool := List.isSuffixOf mp4Ext (pyLower s)

/-- Python `s.rsplit('.', 1)[0]`: everything before the last `'.'`,
or the whole string when no `'.'` occurs. -/
def rsplitDot1Head (s : List Char) : List Char :=
  if s.reverse.dropWhile (fun c => c ≠ '.') = [] then s
  else (s.reverse.dropWhile (fun c => c ≠ '.')).tail.reverse

/-- The filename normalization of `upload_video`:
`if not filename.lower().endswith(".mp4"): filename = f"{filename.rsplit('.', 1)[0]}.mp4"`. -/
def normalizeFilename (s : List Char) : List Char :=
  if endsWithMp4 s then s else rsplitDot1Head s ++ mp4Ext

/-! ## Sentiment adapter (analyze_sentiment, main.py lines 75-91) -/

/-- The `confidence_scores` record of an Azure sentiment document. -/
structure ConfidenceScores where
  positive : Rat
  neutral : Rat
  negative : Rat
deriving Repr, DecidableEq

/-- One successfully analyzed document returned by the external classifier. -/
structure SentimentDoc where
  sentiment : String
  confidence_scores : ConfidenceScores
deriving Repr, DecidableEq

/-- The dictionary `analyze_sentiment` returns to its caller. -/
structure SentimentData where
  sentiment : String
  positive : Rat
  neutral : Rat
  negative : Rat
deriving Repr, DecidableEq

/-- The fallback value built in the `except` branch of `analyze_sentiment`. -/
def unknownSentiment : SentimentData := ⟨"unknown", 0, 0, 0⟩

/-- `analyze_sentiment(comment)`: calls the external classifier with the
one-element batch `[comment]` and indexes `[0]`.  The oracle `client`
models `text_analytics_client.analyze_sentiment`; `Except.error` is any
exception it raises, and an empty result list makes the `[0]` index raise
`IndexError`.  Every failure is caught by the `except` and converted to
the `"unknown"` default; the function is total. -/
def analyzeSentiment (client : String → Except String (List SentimentDoc))
    (comment : String) : SentimentData :=
  match client comment with
  | Except.error _ => unknownSentiment
  | Except.ok docs =>
    match docs with
    | [] => unknownSentiment
    | d :: _ =>
      ⟨d.sentiment, d.confidence_scores.positive, d.confidence_scores.neutral,
        d.confidence_scores.negative⟩

/-! ## Comment store (Azure SQL, main.py lines 128-186) -/

/-- One row of the `Comments` table.  The SQL columns `Sentiment`,
`PositiveScore`, `NeutralScore`, `NegativeScore` are nullable, hence
`Option`; `CreatedAt` is the server clock value assigned by `GETDATE()`. -/
structure CommentRow where
  videoName : String
  commentText : String
  sentiment : Option String
  positiveScore : Option Rat
  neutralScore : Option Rat
  negativeScore : Option Rat
  createdAt : Nat
deriving Repr, DecidableEq

/-- A live database connection: the stored rows plus the server clock
used by `GETDATE()` (monotonically bumped on each insert). -/
structure DBState where
  rows : List CommentRow
  clock : Nat
deriving Repr, DecidableEq

/-- The parameterized `INSERT INTO Comments ... VALUES (?,?,?,?,?,?, GETDATE())`
of `add_comment`, followed by `conn.commit()`. -/
def insertComment (db : DBState) (videoName commentText sentiment : String)
    (pos neu neg : Rat) : DBState :=
  ⟨db.rows ++ [⟨videoName, commentText, some sentiment, some pos, some neu, some neg, db.clock⟩],
    db.clock + 1⟩

/-- `ORDER BY CreatedAt DESC`: row `a` may precede row `b` when `a` is at
least as recent. -/
def newerFirst (a b : CommentRow) : Prop := b.createdAt ≤ a.createdAt

instance : DecidableRel newerFirst := fun a b =>
  inferInstanceAs (Decidable (b.createdAt ≤ a.createdAt))

instance : IsTotal CommentRow newerFirst := ⟨fun a b => Nat.le_total b.createdAt a.createdAt⟩

instance : IsTrans CommentRow newerFirst :=
  ⟨fun _ _ _ hab hbc => Nat.le_trans hbc hab⟩

/-- `SELECT CommentText, Sentiment, ... FROM Comments WHERE VideoName = ?
ORDER BY CreatedAt DESC`: the rows matching the video name, sorted most
recent first. -/
def selectComments (db : DBState) (videoName : String) : List CommentRow :=
  List.insertionSort newerFirst (db.rows.filter (fun r => r.videoName == videoName))

/-- Python `x or d` for a nullable string column: `None` and the empty
string are falsy, everything else is returned unchanged. -/
def pyStrOr (x : Option String) (d : String) : String :=
  match x with
  | none => d
  | some s => if s = "" then d else s

/-- Python `float(x or 0)` for a nullable numeric column: `None` and `0`
are falsy and give `0`; any other value passes through `float` unchanged. -/
def pyFloatOr0 (x : Option Rat) : Rat :=
  match x with
  | none => 0
  | some q => if q = 0 then 0 else q

/-- One element of the `comments` array built by `get_comments`. -/
structure CommentOut where
  text : String
  sentiment : String
  positive : Rat
  neutral : Rat
  negative : Rat
  created_at : String
deriving Repr, DecidableEq

/-- The dictionary `get_comments` builds from a fetched row:
`{"text": row[0], "sentiment": row[1] or "neutral", "positive": float(row[2] or 0),
"neutral": float(row[3] or 0), "negative": float(row[4] or 0), "created_at": str(row[5])}`. -/
def rowToComment (r : CommentRow) : CommentOut :=
  ⟨r.commentText, pyStrOr r.sentiment "neutral", pyFloatOr0 r.positiveScore,
    pyFloatOr0 r.neutralScore, pyFloatOr0 r.negativeScore, toString r.createdAt⟩

/-! ## HTTP endpoint bodies -/

/-- Response body of `/add-comment/`: either
`{"status": ..., "sentiment": ...}` or `{"error": ...}`. -/
inductive AddCommentBody where
  | success (status : String) (sentiment : String)
  | error (msg : String)
deriving Repr, DecidableEq

/-- Response body of `/get-comments/`: `{"comments": [...]}`, with an
`"error"` field present on the failure paths. -/
structure GetCommentsBody where
  comments : List CommentOut
  error : Option String
deriving Repr, DecidableEq

/-! ## /add-comment/ (main.py lines 128-153)

External effects are passed as oracles: `client` is the sentiment
service, `reconnect` the result of the `create_db_connection()` retry
(`none` when the connection attempt fails), `insertErr` the outcome of
`cursor.execute`/`conn.commit` (`some e` when the insert raises `e`). -/

/-- The body of `add_comment` from the `try:` onward, on a live connection. -/
def addCommentConnected (client : String → Except String (List SentimentDoc))
    (insertErr : Option String) (db : DBState) (videoName commentText : String) :
    Option DBState × AddCommentBody :=
  let sd := analyzeSentiment client commentText
  match insertErr with
  | some e => (some db, AddCommentBody.error e)
  | none =>
    (some (insertComment db videoName commentText sd.sentiment sd.positive sd.neutral sd.negative),
      AddCommentBody.success "Comment added" sd.sentiment)

/-- `add_comment(video_name, comment_text)`.  The first component is the
global connection state after the request (`conn`/`cursor`). -/
def addComment (client : String → Except String (List SentimentDoc))
    (reconnect : Option DBState) (insertErr : Option String)
    (st : Option DBState) (videoName commentText : String) :
    Option DBState × AddCommentBody :=
  match st with
  | none =>
    match reconnect with
    | none => (none, AddCommentBody.error "SQL Database not connected.")
    | some db => addCommentConnected client insertErr db videoName commentText
  | some db => addCommentConnected client insertErr db videoName commentText

/-- `add_comment` never raises an `HTTPException`, so FastAPI wraps any
returned dict in an HTTP 200 response. -/
def addCommentHttp (client : String → Except String (List SentimentDoc))
    (reconnect : Option DBState) (insertErr : Option String)
    (st : Option DBState) (videoName commentText : String) :
    Nat × AddCommentBody :=
  (200, (addComment client reconnect insertErr st videoName commentText).2)

/-! ## /get-comments/ (main.py lines 155-186) -/

/-- The body of `get_comments` from the `try:` onward, on a live
connection; `queryErr` is the outcome of the `SELECT` (`some e` when
`cursor.execute`/`fetchall` raises `e`). -/
def getCommentsConnected (queryErr : Option String) (db : DBState) (videoName : String) :
    Option DBState × GetCommentsBody :=
  match queryErr with
  | some e => (some db, ⟨[], some e⟩)
  | none => (some db, ⟨(selectComments db videoName).map rowToComment, none⟩)

/-- `get_comments(video_name)`. -/
def getComments (reconnect : Option DBState) (queryErr : Option String)
    (st : Option DBState) (videoName : String) :
    Option DBState × GetCommentsBody :=
  match st with
  | none =>
    match reconnect with
    | none => (none, ⟨[], some "SQL Database not connected."⟩)
    | some db => getCommentsConnected queryErr db videoName
  | some db => getCommentsConnected queryErr db videoName

/-! ## /upload-video/ (main.py lines 94-126) -/

/-- The permission set passed to `generate_blob_sas`; the code passes
`BlobSasPermissions(read=True)`, leaving every other permission `False`. -/
structure BlobSasPermissions where
  read : Bool
  add : Bool
  create : Bool
  write : Bool
  delete : Bool
deriving Repr, DecidableEq

/-- `BlobSasPermissions(read=True)`. -/
def readOnlyPermission : BlobSasPermissions := ⟨true, false, false, false, false⟩

/-- Python `timedelta(hours=h)` in seconds. -/
def timedeltaHours (h : Nat) : Nat := h * 3600

/-- The argument record `upload_video` passes to the external
`generate_blob_sas`: read-only permission and
`expiry = datetime.utcnow() + timedelta(hours=24)`, where `now` is
`datetime.utcnow()` in seconds. -/
structure SasRequest where
  accountName : String
  containerName : String
  blobName : List Char
  permission : BlobSasPermissions
  expiry : Nat
deriving Repr, DecidableEq

/-- The `generate_blob_sas(...)` call site of `upload_video` at issuance
time `now` for the normalized blob name `fname`. -/
def uploadSasRequest (accountName containerName : String) (fname : List Char)
    (now : Nat) : SasRequest :=
  ⟨accountName, containerName, fname, readOnlyPermission, now + timedeltaHours 24⟩

/-- The HTTPException raised by `upload_video` on failure. -/
structure HTTPError where
  status : Nat
  detail : String
deriving Repr, DecidableEq

/-- Success body of `/upload-video/`: `{"video_url": ..., "video_name": ...}`. -/
structure UploadResponse where
  video_url : List Char
  video_name : List Char
deriving Repr, DecidableEq

/-- `upload_video(file)`.  `blobUrl` is the external `blob_client.url`
for a blob name, `genSas` the external `generate_blob_sas`, and
`uploadResult` the oracle for `await file.read()` and
`blob_client.upload_blob(...)`: `Except.error e` is any exception raised
there.  The `except` clause re-raises as
`HTTPException(status_code=500, detail=str(e))`; the success path returns
`{"video_url": f"{blob_client.url}?{sas_token}", "video_name": filename}`. -/
def uploadVideo (accountName containerName : String)
    (blobUrl : List Char → List Char) (genSas : SasRequest → List Char)
    (uploadResult : Except String Unit) (now : Nat) (filename : List Char) :
    Except HTTPError UploadResponse :=
  let fname := normalizeFilename filename
  match uploadResult with
  | Except.error e => Except.error ⟨500, e⟩
  | Except.ok _ =>
    Except.ok ⟨blobUrl fname ++ '?' :: genSas (uploadSasRequest accountName containerName fname now),
      fname⟩

/-- FastAPI maps a raised `HTTPException` to a response with its status
code, and a plain dict return to HTTP 200. -/
def uploadHttpStatus (r : Except HTTPError UploadResponse) : Nat :=
  match r with
  | Except.error e => e.status
  | Except.ok _ => 200

/-! ## Supporting lemmas -/

/-- `rsplit('.', 1)[0]` of a string whose last dot separates `t` from a
dot-free `u` is exactly `t`. -/
theorem rsplitDot1Head_before_last (t u : List Char) (hu : '.' ∉ u) :
    rsplitDot1Head (t ++ '.' :: u) = t := by
  have hall : ∀ c ∈ u.reverse, (fun c => decide (c ≠ '.')) c = true := by
    intro c hc
    simp only [List.mem_reverse] at hc
    simp only [decide_eq_true_eq]
    intro h
    exact hu (h ▸ hc)
  have hrev : (t ++ '.' :: u).reverse = u.reverse ++ '.' :: t.reverse := by
    simp
  unfold rsplitDot1Head
  rw [hrev, List.dropWhile_append_of_pos hall]
  simp [List.dropWhile_cons]

/-- `rsplit('.', 1)[0]` of a dot-free string is the whole string. -/
theorem rsplitDot1Head_no_dot (s : List Char) (hs : '.' ∉ s) :
    rsplitDot1Head s = s := by
  have hall : ∀ c ∈ s.reverse, (fun c => decide (c ≠ '.')) c = true := by
    intro c hc
    simp only [List.mem_reverse] at hc
    simp only [decide_eq_true_eq]
    intro h
    exact hs (h ▸ hc)
  have hdrop : s.reverse.dropWhile (fun c => decide (c ≠ '.')) = [] := by
    have := @List.dropWhile_append_of_pos Char (fun c => decide (c ≠ '.')) s.reverse [] hall
    simpa using this
  unfold rsplitDot1Head
  rw [hdrop]
  simp

/-! ## Claims -/

/-- C1: an uploaded filename that does not end in `".mp4"`
(case-insensitively) is stored as the text before its last `'.'`
followed by `".mp4"` (a dot-free filename keeps its whole text); a
filename already ending in `".mp4"` in any letter case is kept
unchanged. -/
theorem C1_upload_filename_normalization (s : List Char) :
    (endsWithMp4 s = true → normalizeFilename s = s) ∧
    (endsWithMp4 s = false →
      (∀ t u, s = t ++ '.' :: u → '.' ∉ u → normalizeFilename s = t ++ mp4Ext) ∧
      ('.' ∉ s → normalizeFilename s = s ++ mp4Ext)) := by
  constructor
  · intro h
    unfold normalizeFilename
    rw [h]
    simp
  · intro h
    constructor
    · intro t u hsplit hu
      unfold normalizeFilename
      rw [h]
      simp only [Bool.false_eq_true, if_false]
      rw [hsplit, rsplitDot1Head_before_last t u hu]
    · intro hs
      unfold normalizeFilename
      rw [h]
      simp only [Bool.false_eq_true, if_false]
      rw [rsplitDot1Head_no_dot s hs]

/-- Witness for C1: `clip.mov` is stored as `clip.mp4`; `clip.MP4` is
kept unchanged. -/
theorem C1_upload_filename_normalization_witness :
    normalizeFilename ['c', 'l', 'i', 'p', '.', 'm', 'o', 'v'] = ['c', 'l', 'i', 'p'] ++ mp4Ext ∧
    normalizeFilename ['c', 'l', 'i', 'p', '.', 'M', 'P', '4'] =
      ['c', 'l', 'i', 'p', '.', 'M', 'P', '4'] :=
  ⟨((C1_upload_filename_normalization _).2 (by decide)).1 ['c', 'l', 'i', 'p'] ['m', 'o', 'v']
      (by decide) (by decide),
    (C1_upload_filename_normalization _).1 (by decide)⟩

/-- C2: `analyze_sentiment` is a total function (it never raises), and
whenever the underlying classifier call fails — by raising, or by
returning an empty batch so that the `[0]` index raises — the result is
exactly the default `{sentiment: "unknown", positive: 0, neutral: 0,
negative: 0}`. -/
theorem C2_sentiment_fallback (client : String → Except String (List SentimentDoc))
    (comment : String) :
    (∀ e, client comment = Except.error e →
      analyzeSentiment client comment = unknownSentiment) ∧
    (client comment = Except.ok [] →
      analyzeSentiment client comment = unknownSentiment) ∧
    unknownSentiment = ⟨"unknown", 0, 0, 0⟩ := by
  refine ⟨fun e he => ?_, fun he => ?_, rfl⟩
  · unfold analyzeSentiment
    rw [he]
  · unfold analyzeSentiment
    rw [he]

/-- Witness for C2: a classifier that raises yields the default result. -/
theorem C2_sentiment_fallback_witness :
    analyzeSentiment (fun _ => Except.error "connection refused") "great video" =
      unknownSentiment :=
  (C2_sentiment_fallback (fun _ => Except.error "connection refused") "great video").1
    "connection refused" rfl

/-- C3: on a connected store, a classifier failure does not block comment
persistence: the row is still inserted, tagged `"unknown"` with all three
scores `0`, and the request returns the success body. -/
theorem C3_classifier_failure_not_blocking
    (client : String → Except String (List SentimentDoc)) (reconnect : Option DBState)
    (db : DBState) (videoName commentText e : String)
    (hfail : client commentText = Except.error e) :
    addComment client reconnect none (some db) videoName commentText =
      (some ⟨db.rows ++
          [⟨videoName, commentText, some "unknown", some 0, some 0, some 0, db.clock⟩],
          db.clock + 1⟩,
        AddCommentBody.success "Comment added" "unknown") := by
  have hsd : analyzeSentiment client commentText = unknownSentiment := by
    unfold analyzeSentiment
    rw [hfail]
  unfold addComment addCommentConnected
  rw [hsd]
  rfl

/-- Witness for C3 on a concrete database and failing classifier. -/
theorem C3_classifier_failure_not_blocking_witness :
    addComment (fun _ => Except.error "quota exceeded") none none
        (some ⟨[], 7⟩) "intro" "nice" =
      (some ⟨[⟨"intro", "nice", some "unknown", some 0, some 0, some 0, 7⟩], 8⟩,
        AddCommentBody.success "Comment added" "unknown") :=
  C3_classifier_failure_not_blocking (fun _ => Except.error "quota exceeded") none
    ⟨[], 7⟩ "intro" "nice" "quota exceeded" rfl

/-- C4: failure-status asymmetry.  A failing upload raises
`HTTPException(500, str(e))`, so the response status is 500 with the
underlying error text as detail; a failing comment insert is answered
with HTTP 200 and the error text embedded as the `"error"` field of the
body. -/
theorem C4_failure_status_asymmetry
    (accountName containerName : String) (blobUrl : List Char → List Char)
    (genSas : SasRequest → List Char) (now : Nat) (filename : List Char)
    (client : String → Except String (List SentimentDoc)) (reconnect : Option DBState)
    (db : DBState) (videoName commentText e₁ e₂ : String) :
    uploadVideo accountName containerName blobUrl genSas (Except.error e₁) now filename =
      Except.error ⟨500, e₁⟩ ∧
    uploadHttpStatus
      (uploadVideo accountName containerName blobUrl genSas (Except.error e₁) now filename) =
        500 ∧
    addCommentHttp client reconnect (some e₂) (some db) videoName commentText =
      (200, AddCommentBody.error e₂) := by
  refine ⟨rfl, rfl, ?_⟩
  unfold addCommentHttp addComment addCommentConnected
  rfl

/-- C5: with no live connection and a failing reconnect, `add_comment`
answers `{"error": "SQL Database not connected."}` and `get_comments`
answers `{"comments": [], "error": "SQL Database not connected."}`; both
handlers are total functions of the embedding, so neither propagates a
fault. -/
theorem C5_store_unreachable
    (client : String → Except String (List SentimentDoc))
    (insertErr queryErr : Option String) (videoName commentText queryName : String) :
    addComment client none insertErr none videoName commentText =
      (none, AddCommentBody.error "SQL Database not connected.") ∧
    getComments none queryErr none queryName =
      (none, ⟨[], some "SQL Database not connected."⟩) :=
  ⟨rfl, rfl⟩

/-- C6: listing comments for a video returns exactly the stored rows
matching that video name — a permutation of the matching rows, sorted by
creation timestamp descending — mapped in that order into the response;
a video with no matching rows yields `{"comments": []}` with no error;
and for rows inserted in order A, B, C at increasing timestamps the
returned text order is C, B, A. -/
theorem C6_listing_order (db : DBState) (videoName : String) :
    List.Perm (selectComments db videoName)
      (db.rows.filter (fun r => r.videoName == videoName)) ∧
    List.Sorted newerFirst (selectComments db videoName) ∧
    (getCommentsConnected none db videoName).2 =
      ⟨(selectComments db videoName).map rowToComment, none⟩ ∧
    (db.rows.filter (fun r => r.videoName == videoName) = [] →
      (getCommentsConnected none db videoName).2 = ⟨[], none⟩) ∧
    (getComments none none
        ((addComment (fun _ => Except.error "down") none none
          ((addComment (fun _ => Except.error "down") none none
            ((addComment (fun _ => Except.error "down") none none
              (some ⟨[], 1⟩) "v" "A").1) "v" "B").1) "v" "C").1)
        "v").2.comments.map CommentOut.text = ["C", "B", "A"] := by
  refine ⟨List.perm_insertionSort _ _, List.sorted_insertionSort _ _, rfl, ?_, by decide⟩
  intro h
  unfold getCommentsConnected selectComments
  rw [h]
  rfl

/-- Witness for C6: an empty selection yields the empty comments body. -/
theorem C6_listing_order_witness :
    (getCommentsConnected none ⟨[⟨"w", "x", none, none, none, none, 1⟩], 2⟩ "v").2 =
      ⟨[], none⟩ :=
  (C6_listing_order ⟨[⟨"w", "x", none, none, none, none, 1⟩], 2⟩ "v").2.2.2.1 (by decide)

/-- Counterexample to C7 as stated: a record whose stored sentiment label
is the non-null empty string is not returned as stored — the Python falsy
`or` surfaces it as `"neutral"`. -/
theorem C7_read_defaults_counterexample :
    ((getComments none none (some ⟨[⟨"v", "hi", some "", some 1, some 0, some 0, 3⟩], 4⟩)
        "v").2.comments.map CommentOut.sentiment) = ["neutral"] ∧
    "neutral" ≠ "" := by
  decide

/-- C7 amended: a null or empty-string stored sentiment label surfaces as
`"neutral"`; a null stored score surfaces as `0`; every other stored
value is returned as stored (a stored score of `0` passes through the
falsy check with its value unchanged), and the text is returned as
stored. -/
theorem C7_read_defaults (r : CommentRow) :
    ((r.sentiment = none ∨ r.sentiment = some "") →
      (rowToComment r).sentiment = "neutral") ∧
    (∀ s, r.sentiment = some s → s ≠ "" → (rowToComment r).sentiment = s) ∧
    (rowToComment r).text = r.commentText ∧
    (r.positiveScore = none → (rowToComment r).positive = 0) ∧
    (∀ q, r.positiveScore = some q → (rowToComment r).positive = q) ∧
    (r.neutralScore = none → (rowToComment r).neutral = 0) ∧
    (∀ q, r.neutralScore = some q → (rowToComment r).neutral = q) ∧
    (r.negativeScore = none → (rowToComment r).negative = 0) ∧
    (∀ q, r.negativeScore = some q → (rowToComment r).negative = q) := by
  refine ⟨?_, ?_, rfl, ?_, ?_, ?_, ?_, ?_, ?_⟩
  · rintro (h | h) <;> simp [rowToComment, pyStrOr, h]
  · intro s hs hne
    simp [rowToComment, pyStrOr, hs, hne]
  · intro h
    simp [rowToComment, pyFloatOr0, h]
  · intro q hq
    by_cases h0 : q = 0 <;> simp [rowToComment, pyFloatOr0, hq, h0]
  · intro h
    simp [rowToComment, pyFloatOr0, h]
  · intro q hq
    by_cases h0 : q = 0 <;> simp [rowToComment, pyFloatOr0, hq, h0]
  · intro h
    simp [rowToComment, pyFloatOr0, h]
  · intro q hq
    by_cases h0 : q = 0 <;> simp [rowToComment, pyFloatOr0, hq, h0]

/-- Witness for the amended C7 at a concrete row. -/
theorem C7_read_defaults_witness :
    (rowToComment ⟨"v", "t", some "positive", none, some 0, some (3/4), 9⟩).sentiment =
      "positive" ∧
    (rowToComment ⟨"v", "t", some "positive", none, some 0, some (3/4), 9⟩).positive = 0 ∧
    (rowToComment ⟨"v", "t", some "positive", none, some 0, some (3/4), 9⟩).negative = 3 / 4 :=
  ⟨(C7_read_defaults _).2.1 "positive" rfl (by decide),
    (C7_read_defaults _).2.2.2.1 rfl,
    (C7_read_defaults _).2.2.2.2.2.2.2.2 (3 / 4) rfl⟩

/-- C8: on a successful upload, the response carries the canonical stored
name, and its URL embeds the SAS token generated from a request with
read-only permission and expiry exactly 24 hours after issuance. -/
theorem C8_sas_url (accountName containerName : String)
    (blobUrl : List Char → List Char) (genSas : SasRequest → List Char)
    (now : Nat) (filename : List Char) :
    (uploadSasRequest accountName containerName (normalizeFilename filename) now).expiry =
      now + 24 * 3600 ∧
    (uploadSasRequest accountName containerName (normalizeFilename filename) now).permission =
      readOnlyPermission ∧
    readOnlyPermission = ⟨true, false, false, false, false⟩ ∧
    uploadVideo accountName containerName blobUrl genSas (Except.ok ()) now filename =
      Except.ok ⟨blobUrl (normalizeFilename filename) ++ '?' ::
          genSas (uploadSasRequest accountName containerName (normalizeFilename filename) now),
        normalizeFilename filename⟩ :=
  ⟨rfl, rfl, rfl, rfl⟩

/-- C9: on a successful add-comment request, the sentiment label in the
response body equals the label written into the inserted row, and the
three scores written into the row are exactly those returned by the
classification operation on this request's text. -/
theorem C9_response_matches_record
    (client : String → Except String (List SentimentDoc)) (reconnect : Option DBState)
    (db : DBState) (videoName commentText : String) :
    (addComment client reconnect none (some db) videoName commentText).2 =
      AddCommentBody.success "Comment added"
        (analyzeSentiment client commentText).sentiment ∧
    ∃ db2, (addComment client reconnect none (some db) videoName commentText).1 = some db2 ∧
      db2.rows = db.rows ++
        [⟨videoName, commentText,
          some (analyzeSentiment client commentText).sentiment,
          some (analyzeSentiment client commentText).positive,
          some (analyzeSentiment client commentText).neutral,
          some (analyzeSentiment client commentText).negative, db.clock⟩] :=
  ⟨rfl, ⟨_, rfl, rfl⟩⟩

/-- C10: the add-comment endpoint performs no validation of the comment
text: the handler's outcome depends on the classifier only through its
value at the submitted text, and the successfully inserted row stores the
text character-for-character, with the label obtained by classifying that
very text. -/
theorem C10_no_text_validation
    (client : String → Except String (List SentimentDoc)) (reconnect : Option DBState)
    (insertErr : Option String) (db : DBState) (videoName commentText : String) :
    (∀ client2 : String → Except String (List SentimentDoc),
      client2 commentText = client commentText →
      addComment client2 reconnect insertErr (some db) videoName commentText =
        addComment client reconnect insertErr (some db) videoName commentText) ∧
    (insertErr = none → ∃ db2,
      (addComment client reconnect insertErr (some db) videoName commentText).1 = some db2 ∧
      db2.rows = db.rows ++
        [⟨videoName, commentText,
          some (analyzeSentiment client commentText).sentiment,
          some (analyzeSentiment client commentText).positive,
          some (analyzeSentiment client commentText).neutral,
          some (analyzeSentiment client commentText).negative, db.clock⟩]) := by
  constructor
  · intro client2 h
    unfold addComment addCommentConnected analyzeSentiment
    rw [h]
  · rintro rfl
    exact ⟨_, rfl, rfl⟩

/-- Witness for C10: two classifiers agreeing on `"hello"` (an empty and
a whitespace-only string behave the same way) give the same outcome, and
the inserted row stores the text verbatim. -/
theorem C10_no_text_validation_witness :
    (addComment (fun s => if s = "" then Except.ok [] else Except.error "down") none none
        (some ⟨[], 1⟩) "v" "hello" =
      addComment (fun _ => Except.error "down") none none (some ⟨[], 1⟩) "v" "hello") ∧
    ∃ db2,
      (addComment (fun _ => Except.error "down") none none (some ⟨[], 1⟩) "v" "hello").1 =
        some db2 ∧
      db2.rows = [⟨"v", "hello", some "unknown", some 0, some 0, some 0, 1⟩] :=
  ⟨(C10_no_text_validation (fun _ => Except.error "down") none none ⟨[], 1⟩ "v" "hello").1
      (fun s => if s = "" then Except.ok [] else Except.error "down") rfl,
    (C10_no_text_validation (fun _ => Except.error "down") none none ⟨[], 1⟩ "v" "hello").2 rfl⟩

end Backend
